import Mathlib

/-!
Verification development for the Network_Simulation repository.

The definitions below are a shallow embedding of the Python sources:
`core/base_classes.py` (World scheduler), `classical_network/host.py`
(ClassicalHost.send_data) and `quantum_network/adapter.py` (QuantumAdapter).
Node objects (hosts, routers) are identified by numeric references, Python
object identity (`==` on router objects) becomes `Nat` equality, raised
exceptions become `Except` errors, and externally observable side effects
(connection transmissions, log lines, calls into the quantum collaborator)
are collected in an explicit action trace.
-/

/-- A reference to a node object (host, router); Python object identity. -/
abbrev NRef := Nat

/-- The Python class of a packet: `ClassicDataPacket` or
`QKDTransmissionPacket` (the code dispatches on `type(packet) == C`). -/
inductive PKind where
  | classicData
  | qkdTransmission
deriving DecidableEq, Repr

/-- Modelled from the spec (`classical_network/packet.py` is not under src/):
a Packet carries a kind, a payload, `from`/`to` addressing, an optional
`finalDestination` (`destination_address`), an optional `nextHop`, and an
ordered hop trail. Payload bytes are `Nat`s. A freshly constructed packet
has no next hop and an empty hop trail. -/
structure Packet where
  kind : PKind
  data : List Nat
  fromAddr : NRef
  toAddr : NRef
  destAddr : Option NRef := none
  nextHop : Option NRef := none
  hops : List NRef := []
deriving DecidableEq, Repr

/-- Modelled from the spec (`utils/simple_encryption.py` is not under src/):
"symmetric stream cipher — ciphertext = payload XOR key-material (key
repeated/extended to payload length)". `i` is the index of the current byte
within the payload; the key byte used at index `i` is `key[i % len(key)]`. -/
def xorKeyStream (key : List Nat) : Nat → List Nat → List Nat
  | _, [] => []
  | i, b :: rest => (b ^^^ key.getD (i % key.length) 0) :: xorKeyStream key (i + 1) rest

/-- Modelled from the spec: `simple_xor_encrypt(payload, key)`. -/
def simple_xor_encrypt (payload key : List Nat) : List Nat :=
  xorKeyStream key 0 payload

/-- Modelled from the spec: "decrypt is the identical operation
(self-inverse)" — `simple_xor_decrypt` performs the same XOR stream. -/
def simple_xor_decrypt (payload key : List Nat) : List Nat :=
  xorKeyStream key 0 payload

/-- Modelled from the spec (`core/network.py` is not under src/): a Network
carries a running flag; `World.is_running` consults only that flag. -/
structure Network where
  is_running : Bool
deriving DecidableEq, Repr

/-- `World` (core/base_classes.py): the owned networks, the sequential
stop flag and the sequential-coordinator running flag. -/
structure World where
  networks : List Network
  sequential_stop_flag : Bool := false
  is_sequential_running : Bool := false
deriving DecidableEq, Repr

/-- `World.is_running` (core/base_classes.py:37-38):
`all(map(lambda x: x.is_running, self.networks)) or self.is_sequential_running`. -/
def World.is_running (w : World) : Bool :=
  w.networks.all (fun x => x.is_running) || w.is_sequential_running

/-- The claim's reading of `is_running`, stated from the spec's words for
comparison: true iff ANY owned Network is ticking, or the sequential
coordinator is running. -/
def World.is_running_claim (w : World) : Bool :=
  w.networks.any (fun x => x.is_running) || w.is_sequential_running

/-- An observable action of the sequential scheduler loop: a `_forward()`
call on a network (identified by its registration index) or a
`time.sleep(seconds)` call. -/
inductive SchedAction where
  | fwd (network : Nat)
  | sleep (seconds : ℚ)
deriving DecidableEq, Repr

/-- One iteration of the `_game_loop` while-body (core/base_classes.py:57-59):
`for network in self.networks: network._forward(); time.sleep(fps)`.
The sleep sits INSIDE the for loop and sleeps `fps` seconds, so every
network's forward is followed by its own `sleep(fps)`. -/
def gameLoopIter (networks : List Nat) (fps : ℚ) : List SchedAction :=
  networks.map (fun n => [SchedAction.fwd n, SchedAction.sleep fps]) |>.flatten

/-- The claim's iteration, stated from the spec's words for comparison:
forward every network in registration order, then ONE sleep of `1/fps`. -/
def gameLoopIter_claim (networks : List Nat) (fps : ℚ) : List SchedAction :=
  networks.map SchedAction.fwd ++ [SchedAction.sleep (1 / fps)]

/-- The `while not self.sequential_stop_flag` loop
(core/base_classes.py:56-59). `flag i` is the value of
`sequential_stop_flag` observed at the i-th while-check (`stop()` sets it
from outside, so it is an input of the model); `fuel` bounds how many
iterations are modelled. -/
def seqLoop (networks : List Nat) (fps : ℚ) (flag : Nat → Bool) : Nat → List SchedAction
  | 0 => []
  | fuel + 1 =>
    if flag 0 then []
    else gameLoopIter networks fps ++ seqLoop networks fps (fun k => flag (k + 1)) fuel

/-- The number of iterations the loop body runs: the position of the first
true stop flag, capped at the fuel. -/
def stopIndex (flag : Nat → Bool) : Nat → Nat
  | 0 => 0
  | fuel + 1 => if flag 0 then 0 else stopIndex (fun k => flag (k + 1)) fuel + 1

/-- Exceptions raised by the embedded operations. `indexError` is Python's
IndexError from `packet.hops[-2]` on a short hop trail, `attributeError` is
Python's AttributeError from `self.paired_adapter.local_classical_router`
when the adapter is unpaired; the rest are the repository's own exception
classes from `core/exceptions.py`. -/
inductive SimError where
  | defaultGatewayNotFound
  | notConnected (a b : NRef)
  | pairAdapterAlreadyExists
  | pairAdapterDoesNotExists
  | indexError
  | attributeError
deriving DecidableEq, Repr

/-- `ClassicalHost` (classical_network/host.py): its own reference, the
local router of the bound QuantumAdapter (if any), the default gateway
(if any), and the connection predicate `hasConn x y` modelling
`get_connection(x, y) is not None`. -/
structure ClassicalHost where
  ref : NRef
  quantum_adapter_router : Option NRef
  default_gateway : Option NRef
  hasConn : NRef → NRef → Bool

/-- The immediate target of a send (classical_network/host.py:65-70): the
bound adapter's local router when the host has a quantum adapter, else the
destination itself. -/
def ClassicalHost.immediate_to (h : ClassicalHost) (sendTo : NRef) : NRef :=
  match h.quantum_adapter_router with
  | some r => r
  | none => sendTo

/-- The `destination_address` recorded on the outgoing packet
(classical_network/host.py:65-70): the real destination when tunnelling
through an adapter, else None. -/
def ClassicalHost.final_dest (h : ClassicalHost) (sendTo : NRef) : Option NRef :=
  match h.quantum_adapter_router with
  | some _ => some sendTo
  | none => none

/-- `ClassicalHost.send_data` (classical_network/host.py:64-114). Returns
the transmitted packet on success; an error means the corresponding
exception was raised before any transmission. Note the code resolves the
next hop by checking `get_connection(self, send_to)` — a direct link to the
DESTINATION — even when the packet's immediate target is the adapter's
local router. -/
def ClassicalHost.send_data (h : ClassicalHost) (d : List Nat) (sendTo : NRef) :
    Except SimError Packet :=
  let p : Packet :=
    { kind := .classicData, data := d, fromAddr := h.ref,
      toAddr := h.immediate_to sendTo, destAddr := h.final_dest sendTo }
  if h.hasConn h.ref sendTo then
    -- packet.next_hop = send_to; the second get_connection finds the same link
    let p := { p with nextHop := some sendTo }
    if h.hasConn h.ref sendTo then .ok p
    else .error (.notConnected h.ref sendTo)
  else
    match h.default_gateway with
    | none => .error .defaultGatewayNotFound
    | some g =>
      let p := { p with nextHop := some g }
      if h.hasConn h.ref g then .ok p
      else .error (.notConnected h.ref g)

/-- The claim's resolution rule, stated from the spec's words for
comparison: prefer a direct Connection to the IMMEDIATE TARGET (the
adapter's local router when the host is bound to an adapter, else the
destination), falling back to `default_gateway`. -/
def ClassicalHost.send_data_claim (h : ClassicalHost) (d : List Nat) (sendTo : NRef) :
    Except SimError Packet :=
  let p : Packet :=
    { kind := .classicData, data := d, fromAddr := h.ref,
      toAddr := h.immediate_to sendTo, destAddr := h.final_dest sendTo }
  if h.hasConn h.ref (h.immediate_to sendTo) then
    let p := { p with nextHop := some (h.immediate_to sendTo) }
    if h.hasConn h.ref (h.immediate_to sendTo) then .ok p
    else .error (.notConnected h.ref (h.immediate_to sendTo))
  else
    match h.default_gateway with
    | none => .error .defaultGatewayNotFound
    | some g =>
      let p := { p with nextHop := some g }
      if h.hasConn h.ref g then .ok p
      else .error (.notConnected h.ref g)

/-- Observable actions of the QuantumAdapter. `logReceived` is the audit
line written at the top of `receive_packet` (adapter.py:114-115), i.e. one
entry of `receive_packet` dispatch on that packet; `transmit p src dst` is
`connection.transmit_packet(p)` on the connection between `src` and `dst`;
`qkdClassicalData` is the hand-off to the quantum collaborator's
`receive_classical_data`; `initiateQKD` is `perform_qkd()` on the
collaborator; the `report…` actions are the non-fatal "no shared key"
prints; `forwardCall p to` records `self.forward_packet(p, to)` being
invoked from `process_packet`; `storeKey` is `self.shared_key = key`;
`packetReceivedUpdate` is the `_send_update("packet_received", …)` at the
end of `receive_packet`. -/
inductive AdapterAction where
  | logReceived (p : Packet)
  | qkdClassicalData (d : List Nat)
  | initiateQKD
  | transmit (p : Packet) (src dst : NRef)
  | reportCannotForward
  | reportCannotProcess
  | forwardCall (p : Packet) (dst : NRef)
  | storeKey (k : List Nat)
  | packetReceivedUpdate
deriving DecidableEq, Repr

/-- Python truthiness of `self.shared_key`: `None` and the empty list are
falsy (`if self.shared_key:` at adapter.py:138 and 198). -/
def keyTruthy : Option (List Nat) → Bool
  | none => false
  | some k => !k.isEmpty

/-- `QuantumAdapter` (quantum_network/adapter.py): the private local
classical router, the paired adapter (represented by its local classical
router; `none` = unpaired), the shared key, the pending input buffer, the
local router's connection predicate `hasConn` and the default gateway's
path oracle `getPath` (both opaque collaborators of `forward_packet`). -/
structure QuantumAdapter where
  local_classical_router : NRef
  paired_router : Option NRef
  shared_key : Option (List Nat)
  input_data_buffer : List Packet
  hasConn : NRef → NRef → Bool
  getPath : NRef → NRef → List NRef

/-- `QuantumAdapter.add_paired_adapter` (adapter.py:83-87): raises
PairAdapterAlreadyExists when already paired (the raise precedes any
assignment, so the adapter is untouched), else records the pairing. -/
def QuantumAdapter.add_paired_adapter (a : QuantumAdapter) (other : NRef) :
    Except SimError QuantumAdapter :=
  match a.paired_router with
  | some _ => .error .pairAdapterAlreadyExists
  | none => .ok { a with paired_router := some other }

/-- `QuantumAdapter.initiate_qkd` (adapter.py:103-110): with a paired
adapter, `perform_qkd()` is invoked on the quantum collaborator; otherwise
PairAdapterDoesNotExists is raised. -/
def QuantumAdapter.initiate_qkd (a : QuantumAdapter) :
    Except SimError Unit × List AdapterAction :=
  match a.paired_router with
  | some _ => (.ok (), [.initiateQKD])
  | none => (.error .pairAdapterDoesNotExists, [])

/-- `QuantumAdapter.encrypt_packet` (adapter.py:156-173): a fresh
ClassicDataPacket whose payload is the XOR encryption of the old payload
under `self.shared_key`, addressed to the paired adapter's local router and
keeping the recorded `destination_address`. The only call site
(adapter.py:141) is guarded by a truthy `self.shared_key` and a paired
adapter, so the `getD` defaults are never the values actually used. -/
def QuantumAdapter.encrypt_packet (a : QuantumAdapter) (p : Packet) : Packet :=
  { kind := .classicData
    data := simple_xor_encrypt p.data (a.shared_key.getD [])
    fromAddr := p.fromAddr
    toAddr := a.paired_router.getD 0
    destAddr := p.destAddr }

/-- `QuantumAdapter.decrypt_packet` (adapter.py:175-191): a fresh
ClassicDataPacket whose payload is the XOR decryption of the old payload
under `self.shared_key`, addressed to
`packet.destination_address or packet.to_address`; the new packet carries
no `destination_address` of its own. The only call site (adapter.py:199)
is guarded by a truthy `self.shared_key`. -/
def QuantumAdapter.decrypt_packet (a : QuantumAdapter) (p : Packet) : Packet :=
  { kind := .classicData
    data := simple_xor_decrypt p.data (a.shared_key.getD [])
    fromAddr := p.fromAddr
    toAddr := p.destAddr.getD p.toAddr }

/-- `QuantumAdapter.forward_packet` (adapter.py:236-268): append the local
router to the hop trail; if a direct connection to `to` exists, set
`next_hop = packet.to_address` and transmit on it; otherwise ask the
default gateway for `get_path(local_router, packet.to_address)`, raise
NotConnectedError when the path has length ≤ 1, else take `path[1]` as the
next hop and transmit on the connection to it (raising NotConnectedError
when that connection is missing). -/
def QuantumAdapter.forward_packet (a : QuantumAdapter) (p : Packet) (dst : NRef) :
    Except SimError Unit × List AdapterAction :=
  let p := { p with hops := p.hops ++ [a.local_classical_router] }
  if a.hasConn a.local_classical_router dst then
    (.ok (), [.transmit { p with nextHop := some p.toAddr } a.local_classical_router dst])
  else
    match a.getPath a.local_classical_router p.toAddr with
    | _ :: nh :: _ =>
      if a.hasConn a.local_classical_router nh then
        (.ok (), [.transmit { p with nextHop := some nh } a.local_classical_router nh])
      else (.error (.notConnected a.local_classical_router nh), [])
    | _ => (.error (.notConnected a.local_classical_router p.toAddr), [])

/-- `QuantumAdapter.process_packet` (adapter.py:193-211): with a truthy
shared key, decrypt and forward the decrypted packet to its `to_address`
(which `decrypt_packet` set to `destination_address or to_address`);
without one, report non-fatally that the packet cannot be processed. -/
def QuantumAdapter.process_packet (a : QuantumAdapter) (p : Packet) :
    Except SimError Unit × List AdapterAction :=
  if keyTruthy a.shared_key then
    let dp := a.decrypt_packet p
    let r := a.forward_packet dp dp.toAddr
    (r.1, .forwardCall dp dp.toAddr :: r.2)
  else
    (.ok (), [.reportCannotProcess])

/-- `QuantumAdapter.receive_packet` (adapter.py:112-154). The first
dispatch condition evaluates `packet.hops[-2]` (IndexError when the hop
trail has fewer than 2 entries) and
`self.paired_adapter.local_classical_router` (AttributeError when
unpaired) before anything else. Branches, in order: ciphertext from the
pair → `process_packet`; QKD transmission → collaborator hand-off; no key
yet → `initiate_qkd` and park the packet at the buffer tail, returning
early (skipping the final update); key present and addressed to the local
router → encrypt and forward to the pair; else → forward to the pair. -/
def QuantumAdapter.receive_packet (a : QuantumAdapter) (p : Packet) :
    Except SimError QuantumAdapter × List AdapterAction :=
  let t0 : List AdapterAction := [.logReceived p]
  if p.hops.length < 2 then (.error .indexError, t0)
  else
    match a.paired_router with
    | none => (.error .attributeError, t0)
    | some pr =>
      if p.hops.getD (p.hops.length - 2) 0 == pr && p.kind == PKind.classicData then
        let r := a.process_packet p
        match r.1 with
        | .error e => (.error e, t0 ++ r.2)
        | .ok _ => (.ok a, t0 ++ r.2 ++ [.packetReceivedUpdate])
      else if p.kind == PKind.qkdTransmission then
        (.ok a, t0 ++ [.qkdClassicalData p.data, .packetReceivedUpdate])
      else if a.shared_key.isNone then
        -- `self.paired_adapter is not None` holds here: we matched `some pr`
        let r := a.initiate_qkd
        match r.1 with
        | .error e => (.error e, t0 ++ r.2)
        | .ok _ =>
          (.ok { a with input_data_buffer := a.input_data_buffer ++ [p] }, t0 ++ r.2)
      else if p.toAddr == a.local_classical_router then
        if keyTruthy a.shared_key then
          let r := a.forward_packet (a.encrypt_packet p) pr
          match r.1 with
          | .error e => (.error e, t0 ++ r.2)
          | .ok _ => (.ok a, t0 ++ r.2 ++ [.packetReceivedUpdate])
        else
          (.ok a, t0 ++ [.reportCannotForward, .packetReceivedUpdate])
      else
        let r := a.forward_packet p pr
        match r.1 with
        | .error e => (.error e, t0 ++ r.2)
        | .ok _ => (.ok a, t0 ++ r.2 ++ [.packetReceivedUpdate])

/-- The `while not self.input_data_buffer.empty()` drain loop of
`on_qkd_established` (adapter.py:93-95): dequeue the head, re-dispatch it
through `receive_packet`, repeat; an exception raised by a re-dispatch
propagates out. The loop is modelled with fuel; `on_qkd_established`
supplies fuel equal to the initial buffer length, which suffices because a
keyed adapter never re-enqueues (proved for the C1 theorem). -/
def QuantumAdapter.drainBuffer : Nat → QuantumAdapter → Except SimError QuantumAdapter × List AdapterAction
  | 0, a => (.ok a, [])
  | fuel + 1, a =>
    match a.input_data_buffer with
    | [] => (.ok a, [])
    | p :: rest =>
      let a1 := { a with input_data_buffer := rest }
      let r := a1.receive_packet p
      match r.1 with
      | .error e => (.error e, r.2)
      | .ok a2 =>
        let r2 := QuantumAdapter.drainBuffer fuel a2
        (r2.1, r.2 ++ r2.2)

/-- `QuantumAdapter.on_qkd_established` (adapter.py:89-95): store the
shared key, then drain the pending input buffer through `receive_packet`. -/
def QuantumAdapter.on_qkd_established (a : QuantumAdapter) (key : List Nat) :
    Except SimError QuantumAdapter × List AdapterAction :=
  let a1 := { a with shared_key := some key }
  let r := QuantumAdapter.drainBuffer a1.input_data_buffer.length a1
  (r.1, .storeKey key :: r.2)

/-- The packets on which `receive_packet` dispatch was entered, in order:
the projection of a trace to its `logReceived` entries. -/
def dispatched (t : List AdapterAction) : List Packet :=
  t.filterMap (fun x => match x with | .logReceived p => some p | _ => none)

/-- A connection predicate with no links at all. -/
def connNone : NRef → NRef → Bool := fun _ _ => false

/-- A connection predicate in which every pair of nodes is linked. -/
def connAll : NRef → NRef → Bool := fun _ _ => true

/-- A path oracle that reports every destination unreachable. -/
def pathNone : NRef → NRef → List NRef := fun _ _ => []

/-- An already-paired adapter used as a concrete witness input. -/
def adapterPairedW : QuantumAdapter :=
  { local_classical_router := 1, paired_router := some 2, shared_key := none,
    input_data_buffer := [], hasConn := connNone, getPath := pathNone }

/-- An unpaired adapter used as a concrete witness input. -/
def adapterUnpairedW : QuantumAdapter :=
  { adapterPairedW with paired_router := none }

/-- A host bound to a quantum adapter (local router 10), with no default
gateway, and a direct connection only to node 5 (the destination). -/
def hostCE : ClassicalHost :=
  { ref := 0, quantum_adapter_router := some 10, default_gateway := none,
    hasConn := fun a b => a == 0 && b == 5 }

/-- A host with no links and no gateway (DefaultGatewayNotFound case). -/
def hostNoGw : ClassicalHost :=
  { ref := 0, quantum_adapter_router := none, default_gateway := none,
    hasConn := connNone }

/-- A host with a gateway at 7 and a link only to the gateway. -/
def hostGwLinked : ClassicalHost :=
  { ref := 0, quantum_adapter_router := none, default_gateway := some 7,
    hasConn := fun a b => a == 0 && b == 7 }

/-- A host with a gateway at 7 but no link to it (NotConnectedError case). -/
def hostGwUnlinked : ClassicalHost :=
  { ref := 0, quantum_adapter_router := none, default_gateway := some 7,
    hasConn := connNone }

/-- A data packet with a two-entry hop trail, used as a witness input. -/
def pktW : Packet :=
  { kind := .classicData, data := [4, 5], fromAddr := 3, toAddr := 9, hops := [3, 4] }

/-- An adapter with a direct connection to every node. -/
def adapterDirectW : QuantumAdapter :=
  { local_classical_router := 1, paired_router := some 2, shared_key := none,
    input_data_buffer := [], hasConn := connAll, getPath := pathNone }

/-- An adapter with no connections whose gateway reports every destination
unreachable (every path is empty). -/
def adapterUnreachableW : QuantumAdapter :=
  { adapterDirectW with hasConn := connNone, getPath := pathNone }

/-- An adapter with no direct connection to node 5; its gateway returns
the path `[1, 9]`, and the connection to 9 exists. -/
def adapterViaPathW : QuantumAdapter :=
  { adapterDirectW with hasConn := fun _ b => b == 9, getPath := fun _ _ => [1, 9] }

/-- An adapter holding the shared key `[3]`, with all connections. -/
def adapterKeyedW : QuantumAdapter :=
  { adapterDirectW with shared_key := some [3] }

/-- A ciphertext-like packet with a recorded final destination. -/
def pktDestW : Packet :=
  { kind := .classicData, data := [6, 7], fromAddr := 2, toAddr := 1,
    destAddr := some 8, hops := [2, 4] }

/-- A one-hop packet: `hops[-2]` raises IndexError on it. -/
def pktShortW : Packet :=
  { kind := .classicData, data := [1], fromAddr := 3, toAddr := 9, hops := [3] }

/-- An unkeyed paired adapter with an empty pending buffer, used to show
repeated QKD initiation. -/
def adapterUnkeyedQ : QuantumAdapter :=
  { local_classical_router := 1, paired_router := some 2, shared_key := none,
    input_data_buffer := [], hasConn := connNone, getPath := pathNone }

/-- First data packet arriving at the unkeyed adapter (previous hop 5 is
not the paired router 2, so it reaches the QKD branch). -/
def qkdPkt1 : Packet :=
  { kind := .classicData, data := [1], fromAddr := 5, toAddr := 9, hops := [5, 6] }

/-- Second data packet arriving while the first is still pending. -/
def qkdPkt2 : Packet :=
  { kind := .classicData, data := [2], fromAddr := 5, toAddr := 9, hops := [5, 6] }

/-- The adapter state after the first packet was parked (still unkeyed). -/
def adapterAfterQ1 : QuantumAdapter :=
  match (adapterUnkeyedQ.receive_packet qkdPkt1).1 with
  | .ok a => a
  | .error _ => adapterUnkeyedQ

/-- A paired, unkeyed adapter with two parked packets and all connections
present, used as a concrete input for the C1 theorem. -/
def adapterBufW : QuantumAdapter :=
  { local_classical_router := 1, paired_router := some 2, shared_key := none,
    input_data_buffer := [qkdPkt1, qkdPkt2], hasConn := connAll, getPath := pathNone }

lemma xorKeyStream_involutive (key : List Nat) (i : Nat) (p : List Nat) :
    xorKeyStream key i (xorKeyStream key i p) = p := by
  induction p generalizing i with
  | nil => simp [xorKeyStream]
  | cons b rest ih => simp [xorKeyStream, Nat.xor_cancel_right, ih]

lemma seqLoop_eq_repeat (networks : List Nat) (fps : ℚ) :
    ∀ (fuel : Nat) (flag : Nat → Bool),
      seqLoop networks fps flag fuel =
        (List.replicate (stopIndex flag fuel) (gameLoopIter networks fps)).flatten := by
  intro fuel
  induction fuel with
  | zero => intro flag; simp [seqLoop, stopIndex]
  | succ n ih =>
    intro flag
    by_cases h : flag 0
    · simp [seqLoop, stopIndex, h]
    · simp [seqLoop, stopIndex, h, ih, List.replicate_succ]

lemma stopIndex_le :
    ∀ (fuel k : Nat) (flag : Nat → Bool),
      (∀ i j, i ≤ j → flag i = true → flag j = true) → flag k = true →
      stopIndex flag fuel ≤ k := by
  intro fuel
  induction fuel with
  | zero => intro k flag _ _; simp [stopIndex]
  | succ n ih =>
    intro k flag hmono hk
    by_cases h : flag 0
    · simp [stopIndex, h]
    · have hkpos : k ≠ 0 := by
        intro h0
        rw [h0] at hk
        exact h hk
      obtain ⟨m, rfl⟩ : ∃ m, k = m + 1 := ⟨k - 1, by omega⟩
      have hm : stopIndex (fun j => flag (j + 1)) n ≤ m :=
        ih m (fun j => flag (j + 1))
          (fun i j hij hi => hmono (i + 1) (j + 1) (by omega) hi) hk
      rw [stopIndex, if_neg h]
      omega

lemma dispatched_append (t1 t2 : List AdapterAction) :
    dispatched (t1 ++ t2) = dispatched t1 ++ dispatched t2 := by
  simp [dispatched]

/-- C3: for every byte payload `p` and non-empty key material `k`,
decrypting the encryption of `p` under `k` yields `p` back, and decrypt is
the identical self-inverse XOR operation as encrypt. -/
theorem C3_cipher_roundtrip (p k : List Nat) (hk : k ≠ []) :
    simple_xor_decrypt (simple_xor_encrypt p k) k = p ∧
    ∀ q j, simple_xor_decrypt q j = simple_xor_encrypt q j :=
  ⟨xorKeyStream_involutive k 0 p, fun _ _ => rfl⟩

theorem C3_cipher_roundtrip_witness :
    ([7, 9] : List Nat) ≠ [] ∧
    (simple_xor_decrypt (simple_xor_encrypt [1, 2, 3] [7, 9]) [7, 9] = [1, 2, 3] ∧
     ∀ q j, simple_xor_decrypt q j = simple_xor_encrypt q j) :=
  ⟨by decide, C3_cipher_roundtrip [1, 2, 3] [7, 9] (by decide)⟩

/-- C8 counterexample: in a World owning one ticking and one stopped
Network, with no sequential coordinator, `is_running` returns false — the
code takes `all(...)`, not the claimed "any owned Network is ticking". -/
theorem C8_counterexample :
    World.is_running ⟨[⟨true⟩, ⟨false⟩], false, false⟩ = false ∧
    World.is_running_claim ⟨[⟨true⟩, ⟨false⟩], false, false⟩ = true := by
  decide

/-- C8 amended: `is_running` is true iff EVERY owned Network is ticking
(vacuously true with no networks) or the sequential coordinator runs; in
particular with some networks ticking and others stopped it is false. -/
theorem C8_is_running_amended (w : World) :
    w.is_running = true ↔
      (∀ n ∈ w.networks, n.is_running = true) ∨ w.is_sequential_running = true := by
  simp [World.is_running, List.all_eq_true]

/-- C9 counterexample: one full iteration of the code's sequential loop
over two networks with fps = 2 is `[fwd 0, sleep 2, fwd 1, sleep 2]` — not
the claimed `[fwd 0, fwd 1, sleep (1/2)]` (one `1/fps` sleep at the end). -/
theorem C9_counterexample :
    seqLoop [0, 1] 2 (fun _ => false) 1 ≠ gameLoopIter_claim [0, 1] 2 := by
  decide

/-- C9 amended: the sequential loop repeats a body that forwards each
network in registration order with a `sleep(fps)` after EACH network (not
one `1/fps` sleep per iteration), until the stop flag is observed at the
while-check; once `stop()` has set the (monotone) flag by check `k`, at
most `k` iterations run in total, so no new iteration starts after the
flag is set. -/
theorem C9_sequential_loop_amended (networks : List Nat) (fps : ℚ)
    (flag : Nat → Bool) (fuel k : Nat)
    (hmono : ∀ i j, i ≤ j → flag i = true → flag j = true)
    (hk : flag k = true) :
    seqLoop networks fps flag fuel =
      (List.replicate (stopIndex flag fuel) (gameLoopIter networks fps)).flatten ∧
    stopIndex flag fuel ≤ k :=
  ⟨seqLoop_eq_repeat networks fps fuel flag, stopIndex_le fuel k flag hmono hk⟩

theorem C9_sequential_loop_amended_witness :
    (∀ i j : Nat, i ≤ j → (fun _ : Nat => true) i = true → (fun _ : Nat => true) j = true) ∧
    (fun _ : Nat => true) 0 = true ∧
    (seqLoop [0, 1] 2 (fun _ => true) 3 =
      (List.replicate (stopIndex (fun _ => true) 3) (gameLoopIter [0, 1] 2)).flatten ∧
     stopIndex (fun _ => true) 3 ≤ 0) :=
  ⟨fun _ _ _ h => h, rfl,
   C9_sequential_loop_amended [0, 1] 2 (fun _ => true) 3 0 (fun _ _ _ h => h) rfl⟩

/-- C4: pairing is one-time — `add_paired_adapter` on an already-paired
adapter raises PairAdapterAlreadyExists (the raise precedes any mutation,
so the existing pairing and all other state are untouched); on an unpaired
adapter it records exactly the given pairing and changes nothing else. -/
theorem C4_pairing_one_time (a : QuantumAdapter) (other pr : NRef) :
    (a.paired_router = some pr →
      a.add_paired_adapter other = .error .pairAdapterAlreadyExists) ∧
    (a.paired_router = none →
      a.add_paired_adapter other = .ok { a with paired_router := some other }) := by
  constructor <;> intro h <;> simp [QuantumAdapter.add_paired_adapter, h]

theorem C4_pairing_one_time_witness :
    (adapterPairedW.paired_router = some 2 ∧
      adapterPairedW.add_paired_adapter 5 = .error .pairAdapterAlreadyExists) ∧
    (adapterUnpairedW.paired_router = none ∧
      adapterUnpairedW.add_paired_adapter 5 =
        .ok { adapterUnpairedW with paired_router := some 5 }) :=
  ⟨⟨rfl, (C4_pairing_one_time adapterPairedW 5 2).1 rfl⟩,
   ⟨rfl, (C4_pairing_one_time adapterUnpairedW 5 2).2 rfl⟩⟩

/-- C5 counterexample: `hostCE` has a direct connection to the destination
5 but none to the immediate target (the adapter's local router 10) and no
gateway. The claim's resolution rule fails with DefaultGatewayNotFound,
but the code resolves the next hop against the DESTINATION and transmits
with `next_hop = 5`. -/
theorem C5_counterexample :
    hostCE.send_data [1] 5 = .ok
      { kind := .classicData, data := [1], fromAddr := 0, toAddr := 10,
        destAddr := some 5, nextHop := some 5 } ∧
    hostCE.send_data_claim [1] 5 = .error .defaultGatewayNotFound := by
  exact ⟨rfl, rfl⟩

/-- C5 amended: `send_data` resolves the next hop by preferring a direct
Connection to the DESTINATION `send_to` (even when the host is bound to an
adapter and the packet's immediate target is the adapter's local router),
falling back to `default_gateway`; it raises DefaultGatewayNotFound when
there is neither a direct link to the destination nor a gateway, and
NotConnectedError when no Connection exists to the resolved next hop; in
both error cases no packet is transmitted. -/
theorem C5_send_resolution_amended (h : ClassicalHost) (d : List Nat) (s g : NRef) :
    (h.hasConn h.ref s = true →
      h.send_data d s = .ok
        { kind := .classicData, data := d, fromAddr := h.ref,
          toAddr := h.immediate_to s, destAddr := h.final_dest s, nextHop := some s }) ∧
    (h.hasConn h.ref s = false → h.default_gateway = none →
      h.send_data d s = .error .defaultGatewayNotFound) ∧
    (h.hasConn h.ref s = false → h.default_gateway = some g →
      h.hasConn h.ref g = true →
      h.send_data d s = .ok
        { kind := .classicData, data := d, fromAddr := h.ref,
          toAddr := h.immediate_to s, destAddr := h.final_dest s, nextHop := some g }) ∧
    (h.hasConn h.ref s = false → h.default_gateway = some g →
      h.hasConn h.ref g = false →
      h.send_data d s = .error (.notConnected h.ref g)) := by
  refine ⟨?_, ?_, ?_, ?_⟩
  · intro h1; simp [ClassicalHost.send_data, h1]
  · intro h1 h2; simp [ClassicalHost.send_data, h1, h2]
  · intro h1 h2 h3; simp [ClassicalHost.send_data, h1, h2, h3]
  · intro h1 h2 h3; simp [ClassicalHost.send_data, h1, h2, h3]

theorem C5_send_resolution_amended_witness :
    (hostCE.hasConn hostCE.ref 5 = true ∧
      hostCE.send_data [1] 5 = .ok
        { kind := .classicData, data := [1], fromAddr := hostCE.ref,
          toAddr := hostCE.immediate_to 5, destAddr := hostCE.final_dest 5,
          nextHop := some 5 }) ∧
    (hostNoGw.hasConn hostNoGw.ref 5 = false ∧ hostNoGw.default_gateway = none ∧
      hostNoGw.send_data [1] 5 = .error .defaultGatewayNotFound) ∧
    (hostGwLinked.hasConn hostGwLinked.ref 5 = false ∧
      hostGwLinked.default_gateway = some 7 ∧
      hostGwLinked.hasConn hostGwLinked.ref 7 = true ∧
      hostGwLinked.send_data [1] 5 = .ok
        { kind := .classicData, data := [1], fromAddr := hostGwLinked.ref,
          toAddr := hostGwLinked.immediate_to 5, destAddr := hostGwLinked.final_dest 5,
          nextHop := some 7 }) ∧
    (hostGwUnlinked.hasConn hostGwUnlinked.ref 5 = false ∧
      hostGwUnlinked.default_gateway = some 7 ∧
      hostGwUnlinked.hasConn hostGwUnlinked.ref 7 = false ∧
      hostGwUnlinked.send_data [1] 5 = .error (.notConnected hostGwUnlinked.ref 7)) :=
  ⟨⟨rfl, (C5_send_resolution_amended hostCE [1] 5 7).1 rfl⟩,
   ⟨rfl, rfl, (C5_send_resolution_amended hostNoGw [1] 5 7).2.1 rfl rfl⟩,
   ⟨rfl, rfl, rfl, (C5_send_resolution_amended hostGwLinked [1] 5 7).2.2.1 rfl rfl rfl⟩,
   ⟨rfl, rfl, rfl, (C5_send_resolution_amended hostGwUnlinked [1] 5 7).2.2.2 rfl rfl rfl⟩⟩

/-- C6: `forward_packet` appends the local router to the hop trail of the
packet it sends on; with a direct connection to the target it transmits on
it; without one it asks the default gateway for
`get_path(local_router, packet.to_address)`, raises NotConnectedError and
transmits nothing when the returned path has length ≤ 1, and otherwise
forwards the packet to `path[1]` (on the connection to `path[1]`, when
that connection exists). -/
theorem C6_forward_unreachable (a : QuantumAdapter) (p : Packet) (dst x nh : NRef)
    (rest : List NRef) :
    (a.hasConn a.local_classical_router dst = true →
      a.forward_packet p dst =
        (.ok (), [.transmit { p with hops := p.hops ++ [a.local_classical_router], nextHop := some p.toAddr } a.local_classical_router dst])) ∧
    (a.hasConn a.local_classical_router dst = false →
      (a.getPath a.local_classical_router p.toAddr).length ≤ 1 →
      a.forward_packet p dst =
        (.error (.notConnected a.local_classical_router p.toAddr), [])) ∧
    (a.hasConn a.local_classical_router dst = false →
      a.getPath a.local_classical_router p.toAddr = x :: nh :: rest →
      a.hasConn a.local_classical_router nh = true →
      a.forward_packet p dst =
        (.ok (), [.transmit { p with hops := p.hops ++ [a.local_classical_router], nextHop := some nh } a.local_classical_router nh])) := by
  refine ⟨?_, ?_, ?_⟩
  · intro h1; simp [QuantumAdapter.forward_packet, h1]
  · intro h1 hlen
    rcases hp : a.getPath a.local_classical_router p.toAddr with _ | ⟨y, _ | ⟨z, rest2⟩⟩
    · simp [QuantumAdapter.forward_packet, h1, hp]
    · simp [QuantumAdapter.forward_packet, h1, hp]
    · rw [hp] at hlen; simp at hlen
  · intro h1 hp hc; simp [QuantumAdapter.forward_packet, h1, hp, hc]

theorem C6_forward_unreachable_witness :
    (adapterDirectW.hasConn adapterDirectW.local_classical_router 5 = true ∧
      adapterDirectW.forward_packet pktW 5 =
        (.ok (), [.transmit { pktW with hops := pktW.hops ++ [adapterDirectW.local_classical_router], nextHop := some pktW.toAddr } adapterDirectW.local_classical_router 5])) ∧
    (adapterUnreachableW.hasConn adapterUnreachableW.local_classical_router 5 = false ∧
      (adapterUnreachableW.getPath adapterUnreachableW.local_classical_router pktW.toAddr).length ≤ 1 ∧
      adapterUnreachableW.forward_packet pktW 5 =
        (.error (.notConnected adapterUnreachableW.local_classical_router pktW.toAddr), [])) ∧
    (adapterViaPathW.hasConn adapterViaPathW.local_classical_router 5 = false ∧
      adapterViaPathW.getPath adapterViaPathW.local_classical_router pktW.toAddr = 1 :: 9 :: [] ∧
      adapterViaPathW.hasConn adapterViaPathW.local_classical_router 9 = true ∧
      adapterViaPathW.forward_packet pktW 5 =
        (.ok (), [.transmit { pktW with hops := pktW.hops ++ [adapterViaPathW.local_classical_router], nextHop := some 9 } adapterViaPathW.local_classical_router 9])) :=
  ⟨⟨rfl, (C6_forward_unreachable adapterDirectW pktW 5 1 9 []).1 rfl⟩,
   ⟨rfl, by decide, (C6_forward_unreachable adapterUnreachableW pktW 5 1 9 []).2.1 rfl (by decide)⟩,
   ⟨rfl, rfl, rfl, (C6_forward_unreachable adapterViaPathW pktW 5 1 9 []).2.2 rfl rfl rfl⟩⟩

/-- C7: `process_packet` with no shared key reports non-fatally (no
exception, no forwarding, no delivery); with a (non-empty) shared key it
decrypts the payload and hands the decrypted packet to `forward_packet`
toward the packet's recorded `destination_address`, or its `to_address`
when the former is unset. -/
theorem C7_process_packet (a : QuantumAdapter) (p : Packet) (k : List Nat) :
    (a.shared_key = none →
      a.process_packet p = (.ok (), [.reportCannotProcess])) ∧
    (a.shared_key = some k → k ≠ [] →
      a.process_packet p =
        ((a.forward_packet (a.decrypt_packet p) (p.destAddr.getD p.toAddr)).1,
          .forwardCall (a.decrypt_packet p) (p.destAddr.getD p.toAddr) ::
            (a.forward_packet (a.decrypt_packet p) (p.destAddr.getD p.toAddr)).2) ∧
      (a.decrypt_packet p).data = simple_xor_decrypt p.data k ∧
      (a.decrypt_packet p).toAddr = p.destAddr.getD p.toAddr) := by
  constructor
  · intro h; simp [QuantumAdapter.process_packet, keyTruthy, h]
  · intro h hk
    have htruthy : keyTruthy a.shared_key = true := by
      simp [keyTruthy, h, List.isEmpty_iff, hk]
    refine ⟨?_, ?_, ?_⟩
    · simp [QuantumAdapter.process_packet, htruthy, QuantumAdapter.decrypt_packet]
    · simp [QuantumAdapter.decrypt_packet, h]
    · simp [QuantumAdapter.decrypt_packet]

theorem C7_process_packet_witness :
    (adapterDirectW.shared_key = none ∧
      adapterDirectW.process_packet pktDestW = (.ok (), [.reportCannotProcess])) ∧
    (adapterKeyedW.shared_key = some [3] ∧ ([3] : List Nat) ≠ [] ∧
      (adapterKeyedW.process_packet pktDestW =
        ((adapterKeyedW.forward_packet (adapterKeyedW.decrypt_packet pktDestW) (pktDestW.destAddr.getD pktDestW.toAddr)).1,
          .forwardCall (adapterKeyedW.decrypt_packet pktDestW) (pktDestW.destAddr.getD pktDestW.toAddr) ::
            (adapterKeyedW.forward_packet (adapterKeyedW.decrypt_packet pktDestW) (pktDestW.destAddr.getD pktDestW.toAddr)).2) ∧
       (adapterKeyedW.decrypt_packet pktDestW).data = simple_xor_decrypt pktDestW.data [3] ∧
       (adapterKeyedW.decrypt_packet pktDestW).toAddr = pktDestW.destAddr.getD pktDestW.toAddr)) :=
  ⟨⟨rfl, (C7_process_packet adapterDirectW pktDestW [3]).1 rfl⟩,
   ⟨rfl, by decide, (C7_process_packet adapterKeyedW pktDestW [3]).2 rfl (by decide)⟩⟩

/-- C10: `receive_packet` evaluates `packet.hops[-2]` and
`self.paired_adapter.local_classical_router` before any dispatch: a packet
whose hop trail has fewer than 2 entries raises IndexError, and an
unpaired adapter raises AttributeError, in both cases after only the
entry log line and before any of the dispatch steps. -/
theorem C10_receive_preconditions (a : QuantumAdapter) (p : Packet) :
    (p.hops.length < 2 →
      a.receive_packet p = (.error .indexError, [.logReceived p])) ∧
    (2 ≤ p.hops.length → a.paired_router = none →
      a.receive_packet p = (.error .attributeError, [.logReceived p])) := by
  constructor
  · intro h; simp [QuantumAdapter.receive_packet, h]
  · intro h hpr
    simp [QuantumAdapter.receive_packet, Nat.not_lt.mpr h, hpr]

theorem C10_receive_preconditions_witness :
    (pktShortW.hops.length < 2 ∧
      adapterDirectW.receive_packet pktShortW = (.error .indexError, [.logReceived pktShortW])) ∧
    (2 ≤ pktW.hops.length ∧ adapterUnpairedW.paired_router = none ∧
      adapterUnpairedW.receive_packet pktW = (.error .attributeError, [.logReceived pktW])) :=
  ⟨⟨by decide, (C10_receive_preconditions adapterDirectW pktShortW).1 (by decide)⟩,
   ⟨by decide, rfl, (C10_receive_preconditions adapterUnpairedW pktW).2 (by decide) rfl⟩⟩

/-- C2 evaluated on the code: the adapter is unkeyed before and after the
first packet (the key is only set by the later QKD callback), yet EACH of
the two packets arriving before key completion triggers its own
`initiate_qkd` call — the code has no AWAITING guard, so a second
initiation does happen while the first is pending. -/
theorem C2_repeated_initiation_eval :
    adapterUnkeyedQ.shared_key = none ∧
    (adapterUnkeyedQ.receive_packet qkdPkt1).2.count AdapterAction.initiateQKD = 1 ∧
    adapterAfterQ1.shared_key = none ∧
    adapterAfterQ1.input_data_buffer = [qkdPkt1] ∧
    (adapterAfterQ1.receive_packet qkdPkt2).2.count AdapterAction.initiateQKD = 1 := by
  refine ⟨rfl, ?_, rfl, rfl, ?_⟩ <;> rfl

lemma forward_packet_connAll (a : QuantumAdapter) (p : Packet) (dst : NRef)
    (hconn : ∀ x, a.hasConn a.local_classical_router x = true) :
    a.forward_packet p dst =
      (.ok (), [.transmit { p with hops := p.hops ++ [a.local_classical_router], nextHop := some p.toAddr } a.local_classical_router dst]) := by
  simp [QuantumAdapter.forward_packet, hconn]

@[simp] lemma dispatched_nil : dispatched [] = [] := rfl

@[simp] lemma dispatched_cons_log (p : Packet) (t : List AdapterAction) :
    dispatched (.logReceived p :: t) = p :: dispatched t := rfl

@[simp] lemma dispatched_cons_qkd (d : List Nat) (t : List AdapterAction) :
    dispatched (.qkdClassicalData d :: t) = dispatched t := rfl

@[simp] lemma dispatched_cons_init (t : List AdapterAction) :
    dispatched (.initiateQKD :: t) = dispatched t := rfl

@[simp] lemma dispatched_cons_transmit (p : Packet) (x y : NRef) (t : List AdapterAction) :
    dispatched (.transmit p x y :: t) = dispatched t := rfl

@[simp] lemma dispatched_cons_rcf (t : List AdapterAction) :
    dispatched (.reportCannotForward :: t) = dispatched t := rfl

@[simp] lemma dispatched_cons_rcp (t : List AdapterAction) :
    dispatched (.reportCannotProcess :: t) = dispatched t := rfl

@[simp] lemma dispatched_cons_fc (p : Packet) (x : NRef) (t : List AdapterAction) :
    dispatched (.forwardCall p x :: t) = dispatched t := rfl

@[simp] lemma dispatched_cons_store (k : List Nat) (t : List AdapterAction) :
    dispatched (.storeKey k :: t) = dispatched t := rfl

@[simp] lemma dispatched_cons_upd (t : List AdapterAction) :
    dispatched (.packetReceivedUpdate :: t) = dispatched t := rfl

lemma dispatched_forward (a : QuantumAdapter) (p : Packet) (dst : NRef) :
    dispatched (a.forward_packet p dst).2 = [] := by
  by_cases h : a.hasConn a.local_classical_router dst = true
  · simp [QuantumAdapter.forward_packet, h]
  · rcases hp : a.getPath a.local_classical_router p.toAddr with _ | ⟨y, _ | ⟨nh, r⟩⟩ <;>
      simp [QuantumAdapter.forward_packet, h, hp] <;>
      split <;> simp

lemma dispatched_process (a : QuantumAdapter) (p : Packet) :
    dispatched (a.process_packet p).2 = [] := by
  by_cases h : keyTruthy a.shared_key = true
  · simp [QuantumAdapter.process_packet, h, dispatched_forward]
  · simp [QuantumAdapter.process_packet, h]

lemma process_packet_keyed_fst (a : QuantumAdapter) (p : Packet) (k : List Nat)
    (hkey : a.shared_key = some k)
    (hconn : ∀ x, a.hasConn a.local_classical_router x = true) :
    (a.process_packet p).1 = .ok () := by
  by_cases hk : k.isEmpty
  · simp [QuantumAdapter.process_packet, keyTruthy, hkey, hk]
  · simp [QuantumAdapter.process_packet, keyTruthy, hkey, hk,
      forward_packet_connAll _ _ _ hconn]

lemma receive_packet_keyed (a : QuantumAdapter) (p : Packet) (k : List Nat) (pr : NRef)
    (hkey : a.shared_key = some k) (hpr : a.paired_router = some pr)
    (hconn : ∀ x, a.hasConn a.local_classical_router x = true)
    (hh : 2 ≤ p.hops.length) :
    (a.receive_packet p).1 = .ok a ∧ dispatched (a.receive_packet p).2 = [p] := by
  have hnl : ¬ p.hops.length < 2 := by omega
  have hp1 := process_packet_keyed_fst a p k hkey hconn
  have hd1 := dispatched_process a p
  by_cases hb1 : ((p.hops[p.hops.length - 2]?).getD 0 = pr ∧ p.kind = PKind.classicData)
  · constructor <;>
      simp [QuantumAdapter.receive_packet, hnl, hpr, hb1, hp1, hd1, dispatched_append]
  · by_cases hb2 : p.kind = PKind.qkdTransmission
    · constructor <;>
        simp [QuantumAdapter.receive_packet, hnl, hpr, hb1, hb2]
    · by_cases hb3 : p.toAddr = a.local_classical_router
      · by_cases hkE : k.isEmpty = true
        · constructor <;>
            simp [QuantumAdapter.receive_packet, hnl, hpr, hb1, hb2, hb3, hkey,
              keyTruthy, hkE]
        · have hfwd := forward_packet_connAll a (a.encrypt_packet p) pr hconn
          constructor <;>
            simp [QuantumAdapter.receive_packet, hnl, hpr, hb1, hb2, hb3, hkey,
              keyTruthy, hkE, hfwd, dispatched_append]
      · have hfwd := forward_packet_connAll a p pr hconn
        constructor <;>
          simp [QuantumAdapter.receive_packet, hnl, hpr, hb1, hb2, hb3, hkey, hfwd,
            dispatched_append]

lemma drainBuffer_keyed (k : List Nat) (pr : NRef) :
    ∀ (l : List Packet) (a : QuantumAdapter),
      a.input_data_buffer = l →
      a.shared_key = some k → a.paired_router = some pr →
      (∀ x, a.hasConn a.local_classical_router x = true) →
      (∀ p ∈ l, 2 ≤ p.hops.length) →
      (QuantumAdapter.drainBuffer l.length a).1 = .ok { a with input_data_buffer := [] } ∧
      dispatched (QuantumAdapter.drainBuffer l.length a).2 = l := by
  intro l
  induction l with
  | nil =>
    intro a hl _ _ _ _
    have ha : ({ a with input_data_buffer := [] } : QuantumAdapter) = a := by
      rw [← hl]
    rw [ha]
    simp [QuantumAdapter.drainBuffer]
  | cons p rest ih =>
    intro a hl hkey hpr hconn hmem
    have hrk := receive_packet_keyed { a with input_data_buffer := rest } p k pr
      (by simpa using hkey) (by simpa using hpr) (fun x => by simpa using hconn x)
      (hmem p (by simp))
    have hih := ih { a with input_data_buffer := rest } rfl
      (by simpa using hkey) (by simpa using hpr) (fun x => by simpa using hconn x)
      (fun q hq => hmem q (List.mem_cons_of_mem _ hq))
    constructor
    · simp only [List.length_cons, QuantumAdapter.drainBuffer, hl, hrk.1, hih.1]
    · simp only [List.length_cons, QuantumAdapter.drainBuffer, hl, hrk.1]
      simp [dispatched_append, hrk.2, hih.2]

/-- C1: on an adapter with a paired partner and no shared key whose parked
packets all passed reception (hop trails of length ≥ 2), with working
connections, `on_qkd_established(key)` first stores the shared key and
then re-dispatches every parked packet through `receive_packet` exactly
once, in the original arrival order (the `dispatched` projection of the
drain trace is exactly the original buffer), leaving the buffer empty;
re-dispatch cannot re-park a packet because the key is already stored. -/
theorem C1_qkd_buffering_order (a : QuantumAdapter) (pr : NRef) (key : List Nat)
    (hpr : a.paired_router = some pr)
    (hkey : a.shared_key = none)
    (hconn : ∀ x, a.hasConn a.local_classical_router x = true)
    (hbuf : ∀ p ∈ a.input_data_buffer, 2 ≤ p.hops.length) :
    ∃ a2 t, a.on_qkd_established key = (.ok a2, AdapterAction.storeKey key :: t) ∧
      a2.shared_key = some key ∧
      a2.input_data_buffer = [] ∧
      dispatched t = a.input_data_buffer := by
  have hd := drainBuffer_keyed key pr a.input_data_buffer
    { a with shared_key := some key } rfl rfl (by simpa using hpr)
    (fun x => by simpa using hconn x) hbuf
  refine ⟨{ a with shared_key := some key, input_data_buffer := [] },
    (QuantumAdapter.drainBuffer a.input_data_buffer.length
      { a with shared_key := some key }).2, ?_, rfl, rfl, hd.2⟩
  simp only [QuantumAdapter.on_qkd_established]
  rw [Prod.ext_iff]
  exact ⟨hd.1, rfl⟩

theorem C1_qkd_buffering_order_witness :
    (adapterBufW.paired_router = some 2 ∧ adapterBufW.shared_key = none ∧
      (∀ x, adapterBufW.hasConn adapterBufW.local_classical_router x = true) ∧
      (∀ p ∈ adapterBufW.input_data_buffer, 2 ≤ p.hops.length)) ∧
    (∃ a2 t, adapterBufW.on_qkd_established [1, 0] =
        (.ok a2, AdapterAction.storeKey [1, 0] :: t) ∧
      a2.shared_key = some [1, 0] ∧
      a2.input_data_buffer = [] ∧
      dispatched t = adapterBufW.input_data_buffer) :=
  ⟨⟨rfl, rfl, fun _ => rfl, by decide⟩,
   C1_qkd_buffering_order adapterBufW 2 [1, 0] rfl rfl (fun _ => rfl) (by decide)⟩
